import Mathlib

/-!
Verification of the task-loading pipeline, transport client and task model
of the Unit-Testing-Practice repository.

The JavaScript source is shallowly embedded: asynchronous calls become
explicit outcome parameters, thrown exceptions become `Except`/explicit
failure constructors, and `Date` values become integers (milliseconds since
the epoch). Each definition mirrors one source function.
-/

namespace TaskApp

/-- Wire shape of one raw record as received from the transport client:
`\x7b id, name, completed \x7d` (src/frontend/services/api.js, task_list.js). -/
structure RawRecord where
  id : Int
  name : String
  completed : Bool
deriving Repr, DecidableEq

/-- A JavaScript value as it can arrive from `response.json()`: either an
array of raw records or one of the non-array shapes the pipeline must
reject (`null`, object, number, string, boolean). -/
inductive ApiValue where
  | jnull
  | jbool (b : Bool)
  | jnum (n : Int)
  | jstr (s : String)
  | jobj
  | jarr (records : List RawRecord)
deriving Repr, DecidableEq

/-- `Array.isArray` on an `ApiValue`. -/
def ApiValue.isArray : ApiValue → Bool
  | .jarr _ => true
  | _ => false

/-- Outcome of `await api.getTasks()` as seen by `loadTasks`: either a
resolved value or a rejection carrying the thrown error message. -/
inductive FetchResult where
  | ok (v : ApiValue)
  | fail (errMsg : String)
deriving Repr, DecidableEq

/-- Presentation task produced by `loadTasks`
(`\x7b id, display, status \x7d`, src/frontend/logic/task_list.js). -/
structure FormattedTask where
  id : Int
  display : String
  status : String
deriving Repr, DecidableEq

/-- Result of `loadTasks`: `\x7b tasks, error \x7d` with `error = null`
modelled as `none`. -/
structure TaskLoadResult where
  tasks : List FormattedTask
  error : Option String
deriving Repr, DecidableEq

/-- The mapping body of `loadTasks`
(src/frontend/logic/task_list.js lines 59-63):
`id: task.id, display: task.name + (task.completed ? ' (DONE)' : ''),
status: task.completed ? 'Success' : 'Pending'`. -/
def formatTask (task : RawRecord) : FormattedTask :=
  { id := task.id
    display := task.name ++ (if task.completed then " (DONE)" else "")
    status := if task.completed then "Success" else "Pending" }

/-- `loadTasks` (src/frontend/logic/task_list.js lines 46-74), with the
awaited outcome of `api.getTasks()` passed explicitly. The `catch` branch
corresponds to `FetchResult.fail`. -/
def loadTasks (fetchResult : FetchResult) : TaskLoadResult :=
  match fetchResult with
  | .ok rawTasks =>
      if rawTasks.isArray then
        match rawTasks with
        | .jarr records => { tasks := records.map formatTask, error := none }
        | _ => { tasks := [], error := some "Invalid response format: expected array of tasks." }
      else
        { tasks := [], error := some "Invalid response format: expected array of tasks." }
  | .fail _ => { tasks := [], error := some "Failed to load tasks from server." }

/-- `filterTasksByStatus` (src/frontend/logic/task_list.js lines 86-89):
`const statusFilter = completed ? 'Success' : 'Pending';
return tasks.filter((task) => task.status === statusFilter);`. -/
def filterTasksByStatus (tasks : List FormattedTask) (completed : Bool) : List FormattedTask :=
  let statusFilter := if completed then "Success" else "Pending"
  tasks.filter (fun task => task.status == statusFilter)

/-! ### Transport client (src/frontend/services/api.js) -/

/-- Outcome of `response.json()`: a parsed value or a parse exception
carrying its message. -/
inductive BodyParse where
  | parsed (v : ApiValue)
  | parseError (msg : String)
deriving Repr, DecidableEq

/-- The fields of the `fetch` response the service reads:
`ok`, `status`, `statusText`, and the body-parsing outcome. -/
structure HttpResponse where
  ok : Bool
  status : Nat
  statusText : String
  body : BodyParse
deriving Repr, DecidableEq

/-- Outcome of `await fetch(...)`: the network call itself fails with an
error message, or a response arrives. -/
inductive NetOutcome where
  | netError (msg : String)
  | response (r : HttpResponse)
deriving Repr, DecidableEq

/-- Observable side effects of one transport call, in emission order:
a `console.error` line or the network call itself. -/
inductive ApiEvent where
  | consoleError (msg : String)
  | networkCall
deriving Repr, DecidableEq

/-- The fixed diagnostic text logged by `getTasks`. -/
def realCallWarning : String := "Real API call initiated. Should be mocked in unit tests."

/-- `getTasks` (src/frontend/services/api.js lines 260-278): logs the
warning, calls the network, throws `HTTP <status>: <statusText>` on a
non-ok response, and wraps every caught error as
`Failed to fetch tasks: <cause>`. Returns the emitted events in order
paired with the resolved value or the thrown message. -/
def getTasks (outcome : NetOutcome) : List ApiEvent × Except String ApiValue :=
  ([ApiEvent.consoleError realCallWarning, ApiEvent.networkCall],
    match outcome with
    | .netError msg => .error ("Failed to fetch tasks: " ++ msg)
    | .response r =>
        if !r.ok then
          .error ("Failed to fetch tasks: " ++ ("HTTP " ++ toString r.status ++ ": " ++ r.statusText))
        else
          match r.body with
          | .parsed v => .ok v
          | .parseError msg => .error ("Failed to fetch tasks: " ++ msg))

/-- `createTask` (src/frontend/services/api.js lines 289-306): calls the
network directly (no `console.error` in its body), throws
`HTTP <status>: <statusText>` on a non-ok response, and wraps every caught
error as `Failed to create task: <cause>`. -/
def createTask (outcome : NetOutcome) : List ApiEvent × Except String ApiValue :=
  ([ApiEvent.networkCall],
    match outcome with
    | .netError msg => .error ("Failed to create task: " ++ msg)
    | .response r =>
        if !r.ok then
          .error ("Failed to create task: " ++ ("HTTP " ++ toString r.status ++ ": " ++ r.statusText))
        else
          match r.body with
          | .parsed v => .ok v
          | .parseError msg => .error ("Failed to create task: " ++ msg))

/-- Glue between the transport client and the pipeline: a resolved value
reaches the `try` body, a thrown message lands in the `catch`. -/
def fetchToResult : Except String ApiValue → FetchResult
  | .ok v => .ok v
  | .error e => .fail e

/-- `loadTasks` composed over the real `getTasks` outcome. -/
def loadTasksFrom (outcome : NetOutcome) : TaskLoadResult :=
  loadTasks (fetchToResult (getTasks outcome).2)

/-! ### Reference-level model of JavaScript arrays for the mutation claim

JavaScript arrays are heap objects compared by reference;
`Array.prototype.filter` allocates a fresh array and never returns its
receiver. The heap is a list of array contents indexed by reference. -/

/-- Heap of presentation-task arrays; a reference is an index into it. -/
abbrev Heap := List (List FormattedTask)

/-- Dereference: contents stored at reference `r`. -/
def heapGet (h : Heap) (r : Nat) : List FormattedTask := h.getD r []

/-- Calling `filterTasksByStatus` on the array behind reference `r`:
`Array.prototype.filter` reads the receiver, allocates a fresh array with
the kept elements, and returns its (fresh) reference. -/
def filterTasksByStatusCall (h : Heap) (r : Nat) (completed : Bool) : Heap × Nat :=
  (h ++ [filterTasksByStatus (heapGet h r) completed], h.length)

/-! ### Task model (src/models/task.js) -/

/-- A persisted task document. Dates are integers (milliseconds since the
epoch), identity is opaque and irrelevant to the claims. -/
structure StoredTask where
  name : String
  completed : Bool
  createdAt : Int
  updatedAt : Int
deriving Repr, DecidableEq

/-- `Document.prototype.save` under the schema option `timestamps: true`
(src/models/task.js lines 66-69). Modelled at the Record Store boundary
per the spec: `updatedAt: timestamp (set at creation and every mutation)`
— saving persists the document and stamps `updatedAt` with the current
time, passed explicitly. -/
def saveTask (t : StoredTask) (now : Int) : StoredTask :=
  { t with updatedAt := now }

/-- `toggleCompletion` (src/models/task.js lines 83-86):
`this.completed = !this.completed; return this.save();`. -/
def toggleCompletion (t : StoredTask) (now : Int) : StoredTask :=
  saveTask { t with completed := !t.completed } now

/-- `isOverdue` (src/models/task.js lines 97-100):
`if (this.completed) return false; return new Date() > dueDate;`.
`now` is the value of `new Date()` at call time, `dueDate` the argument. -/
def isOverdue (t : StoredTask) (now : Int) (dueDate : Int) : Bool :=
  if t.completed then false else decide (now > dueDate)

/-! ### Theorems -/

/-- C1: on a successful fetch of an array `r`, `loadTasks` returns
`error = null` and one output task per input record, in order: the i-th
task has `id` copied verbatim from `r[i]`, `display` equal to `r[i].name`
with the suffix ` (DONE)` appended exactly when `r[i].completed`, and
`status = "Success"` iff `r[i].completed` (`"Pending"` otherwise). -/
theorem loadTasks_success_spec (r : List RawRecord) :
    (loadTasks (.ok (.jarr r))).error = none ∧
    (loadTasks (.ok (.jarr r))).tasks.length = r.length ∧
    (∀ i : Nat, (loadTasks (.ok (.jarr r))).tasks[i]? = (r[i]?).map formatTask) ∧
    (∀ rec : RawRecord,
      (formatTask rec).id = rec.id ∧
      (rec.completed = true → (formatTask rec).display = rec.name ++ " (DONE)") ∧
      (rec.completed = false → (formatTask rec).display = rec.name) ∧
      ((formatTask rec).status = "Success" ↔ rec.completed = true) ∧
      (rec.completed = false → (formatTask rec).status = "Pending")) := by
  refine ⟨rfl, by simp [loadTasks, ApiValue.isArray], ?_, ?_⟩
  · intro i
    simp [loadTasks, ApiValue.isArray]
  · intro rec
    refine ⟨rfl, ?_, ?_, ?_, ?_⟩ <;>
      cases hc : rec.completed <;> simp [formatTask, hc]

/-- Witness for C1 at the end-to-end example of the spec. -/
theorem loadTasks_success_spec_witness :
    (loadTasks (.ok (.jarr [⟨1, "Finish mocking guide", true⟩,
        ⟨2, "Write documentation", false⟩]))).error = none ∧
    (formatTask ⟨1, "Finish mocking guide", true⟩).display =
      "Finish mocking guide" ++ " (DONE)" ∧
    (formatTask ⟨2, "Write documentation", false⟩).status = "Pending" :=
  ⟨(loadTasks_success_spec [⟨1, "Finish mocking guide", true⟩,
      ⟨2, "Write documentation", false⟩]).1,
   ((loadTasks_success_spec []).2.2.2 ⟨1, "Finish mocking guide", true⟩).2.1 rfl,
   ((loadTasks_success_spec []).2.2.2 ⟨2, "Write documentation", false⟩).2.2.2.2 rfl⟩

/-- C2: on a successful fetch whose value is not an array (`null`, bool,
number, string, object), `loadTasks` returns empty tasks and exactly the
message `Invalid response format: expected array of tasks.`. -/
theorem loadTasks_nonArray (v : ApiValue) (h : v.isArray = false) :
    loadTasks (.ok v) =
      { tasks := [], error := some "Invalid response format: expected array of tasks." } := by
  cases v <;> simp_all [loadTasks, ApiValue.isArray]

/-- Witness for C2 at the concrete non-array value `null`. -/
theorem loadTasks_nonArray_witness :
    loadTasks (.ok .jnull) =
      { tasks := [], error := some "Invalid response format: expected array of tasks." } :=
  loadTasks_nonArray .jnull rfl

/-- C3: whenever the transport call `getTasks` fails — whatever the cause
(network error, non-2xx status, parse failure) — `loadTasks` returns empty
tasks and exactly the message `Failed to load tasks from server.`. -/
theorem loadTasksFrom_failure (outcome : NetOutcome) (e : String)
    (h : (getTasks outcome).2 = .error e) :
    loadTasksFrom outcome =
      { tasks := [], error := some "Failed to load tasks from server." } := by
  unfold loadTasksFrom
  rw [h]
  rfl

/-- Witness for C3 at a concrete network failure. -/
theorem loadTasksFrom_failure_witness :
    loadTasksFrom (.netError "Network request failed") =
      { tasks := [], error := some "Failed to load tasks from server." } :=
  loadTasksFrom_failure (.netError "Network request failed")
    ("Failed to fetch tasks: " ++ "Network request failed") rfl

/-- C4: `filterTasksByStatus` is the predicate filter selecting status
`"Success"` when `wantCompleted` is true and `"Pending"` when false; the
output is a sublist of the input (relative order preserved), its members
are exactly the matching input members, it is empty when nothing matches
and empty on empty input. -/
theorem filterTasksByStatus_spec (tasks : List FormattedTask) (completed : Bool) :
    filterTasksByStatus tasks true = tasks.filter (fun t => t.status == "Success") ∧
    filterTasksByStatus tasks false = tasks.filter (fun t => t.status == "Pending") ∧
    (filterTasksByStatus tasks completed).Sublist tasks ∧
    (∀ t, t ∈ filterTasksByStatus tasks completed ↔
      t ∈ tasks ∧ t.status = (if completed then "Success" else "Pending")) ∧
    ((∀ t ∈ tasks, t.status ≠ (if completed then "Success" else "Pending")) →
      filterTasksByStatus tasks completed = []) ∧
    filterTasksByStatus [] completed = [] := by
  refine ⟨rfl, rfl, List.filter_sublist tasks, ?_, ?_, rfl⟩
  · intro t
    simp [filterTasksByStatus, List.mem_filter]
  · intro hnone
    simp only [filterTasksByStatus, List.filter_eq_nil_iff]
    intro t ht
    simpa using hnone t ht

/-- Witness for C4 at a no-match input. -/
theorem filterTasksByStatus_spec_witness :
    filterTasksByStatus [⟨1, "Task 1 (DONE)", "Success"⟩] false = [] :=
  (filterTasksByStatus_spec [⟨1, "Task 1 (DONE)", "Success"⟩] false).2.2.2.2.1
    (by decide)

/-- C5: calling `filterTasksByStatus` never mutates its input array: in
the reference-heap model of JavaScript arrays, after the call the array
behind the input reference has unchanged contents (hence unchanged
length), and the returned reference is a fresh one, distinct from the
input reference. -/
theorem filterTasksByStatus_no_mutation (h : Heap) (r : Nat) (completed : Bool)
    (hr : r < h.length) :
    heapGet (filterTasksByStatusCall h r completed).1 r = heapGet h r ∧
    (heapGet (filterTasksByStatusCall h r completed).1 r).length = (heapGet h r).length ∧
    (filterTasksByStatusCall h r completed).2 ≠ r := by
  have hget : heapGet (filterTasksByStatusCall h r completed).1 r = heapGet h r := by
    simp [filterTasksByStatusCall, heapGet, List.getD, List.getElem?_append_left hr]
  exact ⟨hget, by rw [hget], Nat.ne_of_gt hr⟩

/-- Witness for C5 at a one-array heap. -/
theorem filterTasksByStatus_no_mutation_witness :
    heapGet (filterTasksByStatusCall [[⟨1, "Task 1", "Pending"⟩]] 0 true).1 0 =
      heapGet [[⟨1, "Task 1", "Pending"⟩]] 0 ∧
    (filterTasksByStatusCall [[⟨1, "Task 1", "Pending"⟩]] 0 true).2 ≠ 0 :=
  ⟨(filterTasksByStatus_no_mutation [[⟨1, "Task 1", "Pending"⟩]] 0 true (by decide)).1,
   (filterTasksByStatus_no_mutation [[⟨1, "Task 1", "Pending"⟩]] 0 true (by decide)).2.2⟩

/-- C10: every possible result of `loadTasks` with a non-null error has an
empty task list — tasks and error are never both populated. -/
theorem loadTasks_error_implies_empty (fr : FetchResult)
    (h : (loadTasks fr).error ≠ none) :
    (loadTasks fr).tasks = [] := by
  cases fr with
  | fail e => rfl
  | ok v => cases v <;> simp_all [loadTasks, ApiValue.isArray]

/-- C6: every failure of `getTasks` carries a message of the form
`Failed to fetch tasks: <cause>`, where the cause is the network error
message, or `HTTP <status>: <statusText>` for a non-ok response, or the
parse exception message; no other error shape escapes. -/
theorem getTasks_error_shape (outcome : NetOutcome) :
    (∀ e, (getTasks outcome).2 = .error e →
      ∃ cause, e = "Failed to fetch tasks: " ++ cause) ∧
    (∀ m, outcome = .netError m →
      (getTasks outcome).2 = .error ("Failed to fetch tasks: " ++ m)) ∧
    (∀ r, outcome = .response r → r.ok = false →
      (getTasks outcome).2 =
        .error ("Failed to fetch tasks: " ++
          ("HTTP " ++ toString r.status ++ ": " ++ r.statusText))) ∧
    (∀ r m, outcome = .response r → r.ok = true → r.body = .parseError m →
      (getTasks outcome).2 = .error ("Failed to fetch tasks: " ++ m)) := by
  refine ⟨?_, ?_, ?_, ?_⟩
  · intro e he
    cases outcome with
    | netError m =>
        simp only [getTasks, Except.error.injEq] at he
        exact ⟨m, he.symm⟩
    | response r =>
        rcases r with ⟨ok, status, statusText, body⟩
        cases ok with
        | false =>
            simp only [getTasks, Bool.not_false, if_pos, Except.error.injEq] at he
            exact ⟨_, he.symm⟩
        | true =>
            cases body with
            | parsed v => simp [getTasks] at he
            | parseError m =>
                simp only [getTasks, Bool.not_true, Except.error.injEq] at he
                simp at he
                exact ⟨m, he.symm⟩
  · intro m hm
    subst hm
    rfl
  · intro r hr hok
    subst hr
    simp [getTasks, hok]
  · intro r m hr hok hbody
    subst hr
    simp [getTasks, hok, hbody]

/-- Witness for C6 at a concrete network failure and a concrete 404. -/
theorem getTasks_error_shape_witness :
    (getTasks (.netError "Network request failed")).2 =
      .error ("Failed to fetch tasks: " ++ "Network request failed") ∧
    (getTasks (.response ⟨false, 404, "Not Found", .parsed .jnull⟩)).2 =
      .error ("Failed to fetch tasks: " ++
        ("HTTP " ++ toString (404 : Nat) ++ ": " ++ "Not Found")) :=
  ⟨(getTasks_error_shape (.netError "Network request failed")).2.1
      "Network request failed" rfl,
   (getTasks_error_shape (.response ⟨false, 404, "Not Found", .parsed .jnull⟩)).2.2.1
      ⟨false, 404, "Not Found", .parsed .jnull⟩ rfl rfl⟩

/-- C7 counterexample: the claim says `createTask` also emits the warning
`Real API call initiated. Should be mocked in unit tests.`, but its body
contains no `console.error` — the call emits no such event. -/
theorem createTask_warning_counterexample :
    ApiEvent.consoleError realCallWarning ∉
      (createTask (.netError "connection refused")).1 := by
  decide

/-- C7 amended: only `getTasks` emits the fixed-text warning, and it does
so before the network call; `createTask` emits no diagnostic at all. -/
theorem api_warning_amended (outcome : NetOutcome) :
    (getTasks outcome).1 = [ApiEvent.consoleError realCallWarning, ApiEvent.networkCall] ∧
    (createTask outcome).1 = [ApiEvent.networkCall] :=
  ⟨rfl, rfl⟩

/-- C8 counterexample: with an incomplete task, `now = 0` and
`referenceDate = 1` — so the reference date is strictly after now — the
claim predicts `isOverdue = true`, but the code compares in the other
direction and returns `false`. -/
theorem isOverdue_claim_counterexample :
    ¬ (isOverdue ⟨"Seed Task A", false, 0, 0⟩ 0 1 = true ↔
        ((StoredTask.mk "Seed Task A" false 0 0).completed = false ∧ (1 : Int) > 0)) := by
  decide

/-- C8 amended: `isOverdue task referenceDate` returns true exactly when
the task's `completed` is false and "now" at call time is strictly after
`referenceDate`; in particular a completed task is never overdue. -/
theorem isOverdue_spec (t : StoredTask) (now d : Int) :
    isOverdue t now d = true ↔ (t.completed = false ∧ now > d) := by
  cases hc : t.completed <;> simp [isOverdue, hc]

/-- C9: toggling twice restores the original `completed` value; each
single application flips `completed`, persists through `save`, and — the
clock having advanced past the stored timestamp — strictly increases
`updatedAt`. -/
theorem toggleCompletion_roundtrip (t : StoredTask) (t1 t2 : Int)
    (h1 : t.updatedAt < t1) (h2 : t1 < t2) :
    (toggleCompletion t t1).completed = !t.completed ∧
    (toggleCompletion t t1) = saveTask { t with completed := !t.completed } t1 ∧
    (toggleCompletion (toggleCompletion t t1) t2).completed = t.completed ∧
    t.updatedAt < (toggleCompletion t t1).updatedAt ∧
    (toggleCompletion t t1).updatedAt <
      (toggleCompletion (toggleCompletion t t1) t2).updatedAt := by
  refine ⟨rfl, rfl, ?_, h1, h2⟩
  simp [toggleCompletion, saveTask]

/-- Witness for C9 at a concrete task and advancing clock. -/
theorem toggleCompletion_roundtrip_witness :
    (StoredTask.mk "Seed Task A" false 0 0).updatedAt < 5 ∧ (5 : Int) < 9 ∧
    (toggleCompletion (toggleCompletion (StoredTask.mk "Seed Task A" false 0 0) 5) 9).completed =
      (StoredTask.mk "Seed Task A" false 0 0).completed :=
  ⟨by decide, by decide,
   (toggleCompletion_roundtrip (StoredTask.mk "Seed Task A" false 0 0) 5 9
      (by decide) (by decide)).2.2.1⟩

/-- Witness for C10 at a concrete failed fetch. -/
theorem loadTasks_error_implies_empty_witness :
    (loadTasks (.fail "boom")).error ≠ none ∧ (loadTasks (.fail "boom")).tasks = [] :=
  ⟨by simp [loadTasks], loadTasks_error_implies_empty (.fail "boom") (by simp [loadTasks])⟩

end TaskApp
